import Mathlib

/-!
Verification of the OpenCL utility layer of the tensor runtime
(onnxruntime/core/providers/opencl/opencl_utils.h).

Shallow embedding conventions:
- int64_t tensor dimensions are Int; a TensorShape is a List Int and
  NumDimensions() is List.length.
- C++ integer division truncates toward zero, which is Int.tdiv.
- size_t arithmetic in HashCombine is Nat arithmetic reduced mod 2 ^ 64.
- ORT_ENFORCE is a fatal abort; a function that may hit one returns an
  Option, with none modelling the abort.
- The device primitive clSetKernelArg is modelled by the status code it
  would return; each binding call of KernelLauncher takes that status as
  an oracle input, and we additionally record a Bool saying whether the
  primitive was actually invoked by that call.
-/

namespace OpenCL

/-- OpenCL status code for success, CL_SUCCESS = 0. -/
def CL_SUCCESS : Int := 0

/-- Embeds CeilDiv from opencl_utils.h at T = int64_t: the body is
(a - 1) / b + 1 with C++ truncating division, hence Int.tdiv. -/
def CeilDiv (a b : Int) : Int := (a - 1).tdiv b + 1

/-- Embeds RoundToMultiple from opencl_utils.h: CeilDiv(a, m) * m. -/
def RoundToMultiple (a m : Int) : Int := CeilDiv a m * m

/-- Mathematical ceiling of the rational a / b for b > 0, written with
Euclidean division; used to state the spec claims that say ceil. -/
def mathCeilDiv (a b : Int) : Int := (a + b - 1) / b

/-- Embeds Image2DDesc: privately a std::pair of int64_t where first is
the width and second is the height. -/
structure Image2DDesc where
  width : Int
  height : Int
deriving DecidableEq

/-- Embeds Image2DDesc::Width, which returns the first pair component. -/
def Image2DDesc.Width (d : Image2DDesc) : Int := d.width

/-- Embeds Image2DDesc::Height, which returns the second pair component. -/
def Image2DDesc.Height (d : Image2DDesc) : Int := d.height

/-- Embeds Image2DDesc::PackFromTensor1D. ORT_ENFORCE of rank 1 is the
wildcard branch; the packed result is (1024, CeilDiv(shape[0], 4 * 1024)). -/
def PackFromTensor1D : List Int → Option Image2DDesc
  | [l] => some ⟨1024, CeilDiv l (4 * 1024)⟩
  | _ => none

/-- Embeds Image2DDesc::PackFromTensor2D: (CeilDiv(shape[0], 4), shape[1]). -/
def PackFromTensor2D : List Int → Option Image2DDesc
  | [r, c] => some ⟨CeilDiv r 4, c⟩
  | _ => none

/-- Embeds Image2DDesc::PackFromTensorNCHW: with Cc = CeilDiv(C, 4) the
result is (Cc * W, N * H). -/
def PackFromTensorNCHW : List Int → Option Image2DDesc
  | [n, c, h, w] => some ⟨CeilDiv c 4 * w, n * h⟩
  | _ => none

/-- Embeds Image2DDesc::PackFromTensorNCHWc: rank must be 5 and the
trailing block dimension must equal 4 (both ORT_ENFORCE, modelled as
none); the result is (Cc * W, N * H). -/
def PackFromTensorNCHWc : List Int → Option Image2DDesc
  | [n, cc, h, w, c] => if c = 4 then some ⟨cc * w, n * h⟩ else none
  | _ => none

/-- Embeds Image2DDesc::PackFromConv2DWeight: (Ci, CeilDiv(Co, 4) * Kh * Kw). -/
def PackFromConv2DWeight : List Int → Option Image2DDesc
  | [co, ci, kh, kw] => some ⟨ci, CeilDiv co 4 * kh * kw⟩
  | _ => none

/-- Embeds Image2DDesc::PackFromWinogradTransform: Kh and Kw are
hard-coded to 4, so the last two shape entries are ignored; the result
is (CeilDiv(Ci, 4) * 4, 16 * CeilDiv(Co, 4)). -/
def PackFromWinogradTransform : List Int → Option Image2DDesc
  | [co, ci, _, _] => some ⟨CeilDiv ci 4 * 4, 16 * CeilDiv co 4⟩
  | _ => none

/-- Embeds Image2DDesc::PackFromDepthwiseConv2DWeight:
(Kh * Kw * Ci, CeilDiv(Co, 4)). -/
def PackFromDepthwiseConv2DWeight : List Int → Option Image2DDesc
  | [co, ci, kh, kw] => some ⟨kh * kw * ci, CeilDiv co 4⟩
  | _ => none

/-- Embeds Image2DDesc::PackFromTensor, the switch on NumDimensions()
with cases 1, 2, 4, 5 and default (0, 0). -/
def PackFromTensor (shape : List Int) : Option Image2DDesc :=
  if shape.length = 1 then PackFromTensor1D shape
  else if shape.length = 2 then PackFromTensor2D shape
  else if shape.length = 4 then PackFromTensorNCHW shape
  else if shape.length = 5 then PackFromTensorNCHWc shape
  else some ⟨0, 0⟩

/-- Embeds the Image2DDesc equality operator: componentwise comparison
of Width() and Height() only. -/
def Image2DDesc.eqOp (a b : Image2DDesc) : Bool :=
  a.Width == b.Width && a.Height == b.Height

/-- Models std::hash of int64_t as the reinterpretation of the value as
a 64 bit unsigned integer, the identity hash used by common
standard-library implementations. -/
def hashInt64 (x : Int) : Nat := (x % (2 ^ 64)).toNat

/-- Embeds HashCombine from opencl_utils.h on size_t values below 2 ^ 64:
b is xored with b + 0x9e3779b9 + (a shifted left by 6) + (a shifted
right by 2), all computed mod 2 ^ 64. -/
def HashCombine (a b : Nat) : Nat :=
  Nat.xor b ((b + 0x9e3779b9 + a * 2 ^ 6 + a / 2 ^ 2) % 2 ^ 64)

/-- Embeds the std::hash specialization for Image2DDesc:
HashCombine(h(Width()), h(Height())). -/
def hashImage2DDesc (d : Image2DDesc) : Nat :=
  HashCombine (hashInt64 d.Width) (hashInt64 d.Height)

/-- Embeds NDRange: a rank below 4 and a backing array of three size_t
values, zero-filled beyond the rank. -/
structure NDRange where
  size_ : Nat
  values_ : List Nat

/-- Embeds the default NDRange constructor: rank 0, zero array. -/
def NDRange.mk0 : NDRange := ⟨0, [0, 0, 0]⟩

/-- Embeds the one-argument NDRange constructor. -/
def NDRange.mk1 (x : Nat) : NDRange := ⟨1, [x, 0, 0]⟩

/-- Embeds the two-argument NDRange constructor. -/
def NDRange.mk2 (x y : Nat) : NDRange := ⟨2, [x, y, 0]⟩

/-- Embeds the three-argument NDRange constructor. -/
def NDRange.mk3 (x y z : Nat) : NDRange := ⟨3, [x, y, z]⟩

/-- Embeds NDRange::Size, which returns the rank. -/
def NDRange.Size (r : NDRange) : Nat := r.size_

/-- Embeds NDRange::Data: a pointer to the backing array when the rank
is nonzero, otherwise the null pointer (none). -/
def NDRange.Data (r : NDRange) : Option (List Nat) :=
  if r.size_ ≠ 0 then some r.values_ else none

/-- Embeds the KernelLauncher state: the opaque kernel handle, the
next-argument cursor index_, the sticky status err_, and the recorded
error index err_index_; the last is uninitialized by the constructor,
modelled as an Option that is none until first written. -/
structure KernelLauncher where
  kernel_ : Nat
  index_ : Nat
  err_ : Int
  err_index_ : Option Nat

/-- Embeds the KernelLauncher constructor: cursor 0, status CL_SUCCESS,
error index uninitialized. -/
def mkKernelLauncher (kernel : Nat) : KernelLauncher :=
  ⟨kernel, 0, CL_SUCCESS, none⟩

/-- Embeds one binding call of KernelLauncher (SetShmem, SetInt2,
SetInt3, SetInt4, SetArg, SetBuffer, SetImage2D all share this control
shape): SKIP_IF_ERRORED around the device primitive, then an
unconditional cursor increment. The argument status is what the device
primitive would return if invoked; the Bool output records whether the
primitive was invoked by this call. -/
def setArgStep (st : KernelLauncher) (status : Int) : KernelLauncher × Bool :=
  if st.err_ = CL_SUCCESS then
    (⟨st.kernel_, st.index_ + 1, status, some st.index_⟩, true)
  else
    (⟨st.kernel_, st.index_ + 1, st.err_, st.err_index_⟩, false)

/-- Runs a chain of binding calls, the device answering the i-th invoked
primitive call with the i-th status of the list; returns the final
launcher state and the per-call invocation record. -/
def runBinds : KernelLauncher → List Int → KernelLauncher × List Bool
  | st, [] => (st, [])
  | st, s :: rest =>
    ((runBinds (setArgStep st s).1 rest).1,
      (setArgStep st s).2 :: (runBinds (setArgStep st s).1 rest).2)

/-- Embeds cl_mem_object_type as far as the checked casts inspect it. -/
inductive CLMemObjectType where
  | buffer
  | image2d
deriving DecidableEq

/-- Embeds a cl_mem object: the only attribute the checked casts read is
its CL_MEM_TYPE. -/
structure MemObj where
  memType : CLMemObjectType
deriving DecidableEq

/-- Embeds a device tensor as seen by the extraction macros: DataRaw()
is its raw device handle, null modelled as none. -/
structure CLTensor where
  dataRaw : Option MemObj
deriving DecidableEq

/-- Embeds CL_CHECK_MEM_OBJECT_IS_BUFFER in the checked build: the
ORT_ENFORCE that the object type is CL_MEM_OBJECT_BUFFER, none
modelling the fatal abort. -/
def CL_CHECK_MEM_OBJECT_IS_BUFFER (m : MemObj) : Option Unit :=
  if m.memType = CLMemObjectType.buffer then some () else none

/-- Embeds CL_CHECK_MEM_OBJECT_IS_IMAGE_2D in the checked build. -/
def CL_CHECK_MEM_OBJECT_IS_IMAGE_2D (m : MemObj) : Option Unit :=
  if m.memType = CLMemObjectType.image2d then some () else none

/-- Embeds CL_BUFFER_FROM_TENSOR in the checked build
(USE_CL_CHECKED_CAST = 1): extract the raw handle; when it is nonnull,
run the buffer validation. The first component is the returned handle
(outer none modelling the fatal abort of a failed validation); the
second records whether the validation ran. -/
def CL_BUFFER_FROM_TENSOR (t : CLTensor) : Option (Option MemObj) × Bool :=
  match t.dataRaw with
  | none => (some none, false)
  | some m =>
    match CL_CHECK_MEM_OBJECT_IS_BUFFER m with
    | some _ => (some (some m), true)
    | none => (none, true)

/-- Embeds CL_IMAGE2D_FROM_TENSOR in the checked build, symmetric to
CL_BUFFER_FROM_TENSOR. -/
def CL_IMAGE2D_FROM_TENSOR (t : CLTensor) : Option (Option MemObj) × Bool :=
  match t.dataRaw with
  | none => (some none, false)
  | some m =>
    match CL_CHECK_MEM_OBJECT_IS_IMAGE_2D m with
    | some _ => (some (some m), true)
    | none => (none, true)

/-! ## Theorems -/

/-- C3: for every tensor shape of rank 1, 2, 4 or 5, the generic packer
PackFromTensor returns exactly the result of the corresponding
rank-specific packer, and for every other rank it returns the
degenerate descriptor (0, 0). -/
theorem packFromTensor_dispatch (s : List Int) :
    (s.length = 1 → PackFromTensor s = PackFromTensor1D s) ∧
    (s.length = 2 → PackFromTensor s = PackFromTensor2D s) ∧
    (s.length = 4 → PackFromTensor s = PackFromTensorNCHW s) ∧
    (s.length = 5 → PackFromTensor s = PackFromTensorNCHWc s) ∧
    (s.length ≠ 1 → s.length ≠ 2 → s.length ≠ 4 → s.length ≠ 5 →
      PackFromTensor s = some ⟨0, 0⟩) := by
  refine ⟨?_, ?_, ?_, ?_, ?_⟩
  · intro h; simp [PackFromTensor, h]
  · intro h; simp [PackFromTensor, h]
  · intro h; simp [PackFromTensor, h]
  · intro h; simp [PackFromTensor, h]
  · intro h1 h2 h4 h5; simp [PackFromTensor, h1, h2, h4, h5]

/-- C3 witness: the dispatch theorem evaluated at one concrete shape of
each rank class. -/
theorem packFromTensor_dispatch_witness :
    PackFromTensor [7] = PackFromTensor1D [7] ∧
    PackFromTensor [5, 7] = PackFromTensor2D [5, 7] ∧
    PackFromTensor [1, 8, 3, 5] = PackFromTensorNCHW [1, 8, 3, 5] ∧
    PackFromTensor [1, 2, 3, 5, 4] = PackFromTensorNCHWc [1, 2, 3, 5, 4] ∧
    PackFromTensor [1, 2, 3] = some ⟨0, 0⟩ :=
  ⟨(packFromTensor_dispatch [7]).1 rfl,
   (packFromTensor_dispatch [5, 7]).2.1 rfl,
   (packFromTensor_dispatch [1, 8, 3, 5]).2.2.1 rfl,
   (packFromTensor_dispatch [1, 2, 3, 5, 4]).2.2.2.1 rfl,
   (packFromTensor_dispatch [1, 2, 3]).2.2.2.2 (by decide) (by decide)
     (by decide) (by decide)⟩

/-- C4: two Image2DDesc values with equal width and equal height,
regardless of provenance, compare equal under the equality operator and
receive the same hash value. -/
theorem image2DDesc_eq_hash_agree (d1 d2 : Image2DDesc)
    (hw : d1.Width = d2.Width) (hh : d1.Height = d2.Height) :
    Image2DDesc.eqOp d1 d2 = true ∧ hashImage2DDesc d1 = hashImage2DDesc d2 := by
  constructor
  · simp [Image2DDesc.eqOp, hw, hh]
  · simp [hashImage2DDesc, hw, hh]

/-- C4 witness: the agreement theorem at the concrete descriptor (10, 3),
which PackFromTensorNCHW and PackFromTensorNCHWc both produce. -/
theorem image2DDesc_eq_hash_agree_witness :
    Image2DDesc.eqOp ⟨10, 3⟩ ⟨10, 3⟩ = true ∧
    hashImage2DDesc ⟨10, 3⟩ = hashImage2DDesc ⟨10, 3⟩ :=
  image2DDesc_eq_hash_agree ⟨10, 3⟩ ⟨10, 3⟩ rfl rfl

/-- C5: on a rank-5 shape whose trailing block dimension equals 4,
PackFromTensorNCHWc returns (Cc * W, N * H); whenever the trailing
dimension differs from 4 it hits the fatal ORT_ENFORCE, modelled as
none. -/
theorem packFromTensorNCHWc_spec (n cc h w c : Int) :
    (c = 4 → PackFromTensorNCHWc [n, cc, h, w, c] = some ⟨cc * w, n * h⟩) ∧
    (c ≠ 4 → PackFromTensorNCHWc [n, cc, h, w, c] = none) := by
  constructor
  · intro hc; simp [PackFromTensorNCHWc, hc]
  · intro hc; simp [PackFromTensorNCHWc, hc]

/-- C5 witness: PackFromTensorNCHWc([1,2,3,5,4]) = (10, 3), and the same
shape with trailing dimension 5 aborts. -/
theorem packFromTensorNCHWc_spec_witness :
    PackFromTensorNCHWc [1, 2, 3, 5, 4] = some ⟨10, 3⟩ ∧
    PackFromTensorNCHWc [1, 2, 3, 5, 5] = none :=
  ⟨((packFromTensorNCHWc_spec 1 2 3 5 4).1 rfl).trans (by decide),
   (packFromTensorNCHWc_spec 1 2 3 5 5).2 (by decide)⟩

/-- C8: a default-constructed NDRange has Size 0 and a null Data
pointer; the two-argument constructor gives Size 2 and a Data array
whose first two entries are the arguments in order. -/
theorem ndRange_spec :
    NDRange.mk0.Size = 0 ∧ NDRange.mk0.Data = none ∧
    ∀ a b : Nat, (NDRange.mk2 a b).Size = 2 ∧
      Option.map (fun l => l.take 2) (NDRange.mk2 a b).Data = some [a, b] :=
  ⟨rfl, rfl, fun _ _ => ⟨rfl, rfl⟩⟩

/-- C9: extracting a Buffer or Image2D handle from a tensor whose raw
device handle is null returns null without running the memory-kind
validation, even in the checked build. -/
theorem null_tensor_skips_validation (t : CLTensor) (h : t.dataRaw = none) :
    CL_BUFFER_FROM_TENSOR t = (some none, false) ∧
    CL_IMAGE2D_FROM_TENSOR t = (some none, false) := by
  constructor
  · simp [CL_BUFFER_FROM_TENSOR, h]
  · simp [CL_IMAGE2D_FROM_TENSOR, h]

/-- C9 witness: the null-handle tensor. -/
theorem null_tensor_skips_validation_witness :
    CL_BUFFER_FROM_TENSOR ⟨none⟩ = (some none, false) ∧
    CL_IMAGE2D_FROM_TENSOR ⟨none⟩ = (some none, false) :=
  null_tensor_skips_validation ⟨none⟩ rfl

/-- Helper: for a positive numerator bound, the CeilDiv of the source
agrees with the mathematical ceiling of a / b for positive b. -/
theorem ceilDiv_eq_mathCeilDiv (a b : Int) (ha : 1 ≤ a) (hb : 1 ≤ b) :
    CeilDiv a b = mathCeilDiv a b := by
  unfold CeilDiv mathCeilDiv
  rw [Int.tdiv_eq_ediv (by omega) (by omega)]
  rw [show a + b - 1 = a - 1 + 1 * b by ring]
  rw [Int.add_mul_ediv_right (a - 1) 1 (by omega : b ≠ 0)]

/-- C6 counterexample: the claim quantifies over every rank-1 shape, but
at the empty shape [0] the packer returns height 1 while the ceiling of
0 / 4096 is 0, because CeilDiv(0, 4096) = (0 - 1) / 4096 + 1 = 1 under
truncating division. -/
theorem packFromTensor1D_claim_counterexample :
    PackFromTensor1D [0] = some ⟨1024, 1⟩ ∧
    mathCeilDiv 0 (4 * 1024) = 0 ∧
    PackFromTensor1D [0] ≠ some ⟨1024, mathCeilDiv 0 (4 * 1024)⟩ := by
  refine ⟨by decide, by decide, by decide⟩

/-- C6 amended: for every rank-1 shape [L] with positive L, the packer
returns width 1024 and height the mathematical ceiling of L / 4096. -/
theorem packFromTensor1D_spec (l : Int) (hl : 1 ≤ l) :
    PackFromTensor1D [l] = some ⟨1024, mathCeilDiv l (4 * 1024)⟩ := by
  simp [PackFromTensor1D, ceilDiv_eq_mathCeilDiv l 4096 hl (by decide)]

/-- C6 witness: the two boundary instances of the claim,
PackFromTensor1D([4096]) = (1024, 1) and PackFromTensor1D([4097]) =
(1024, 2). -/
theorem packFromTensor1D_spec_witness :
    PackFromTensor1D [4096] = some ⟨1024, 1⟩ ∧
    PackFromTensor1D [4097] = some ⟨1024, 2⟩ :=
  ⟨(packFromTensor1D_spec 4096 (by decide)).trans (by decide),
   (packFromTensor1D_spec 4097 (by decide)).trans (by decide)⟩

/-- C7 counterexample: at the rank-4 shape [0, 0, 3, 3] the packer
returns (4, 16), not (ceil(0 / 4) * 4, 16 * ceil(0 / 4)) = (0, 0),
because CeilDiv(0, 4) = 1 under truncating division. -/
theorem packFromWinogradTransform_claim_counterexample :
    PackFromWinogradTransform [0, 0, 3, 3] = some ⟨4, 16⟩ ∧
    mathCeilDiv 0 4 * 4 = 0 ∧ 16 * mathCeilDiv 0 4 = 0 ∧
    PackFromWinogradTransform [0, 0, 3, 3] ≠
      some ⟨mathCeilDiv 0 4 * 4, 16 * mathCeilDiv 0 4⟩ := by
  refine ⟨by decide, by decide, by decide, by decide⟩

/-- C7 amended: for every rank-4 shape [Co, Ci, Kh, Kw] with positive
Co and Ci, the fixed 4x4 transform-weight packer returns width
ceil(Ci / 4) * 4 and height 16 * ceil(Co / 4); Kh and Kw are arbitrary
here, so the result is independent of the last two dimensions. -/
theorem packFromWinogradTransform_spec (co ci kh kw : Int)
    (hco : 1 ≤ co) (hci : 1 ≤ ci) :
    PackFromWinogradTransform [co, ci, kh, kw] =
      some ⟨mathCeilDiv ci 4 * 4, 16 * mathCeilDiv co 4⟩ := by
  simp [PackFromWinogradTransform,
    ceilDiv_eq_mathCeilDiv ci 4 hci (by decide),
    ceilDiv_eq_mathCeilDiv co 4 hco (by decide)]

/-- C7 witness: the transform packer at [8, 5, 3, 9] yields
(ceil(5 / 4) * 4, 16 * ceil(8 / 4)) = (8, 32) although Kh = 3, Kw = 9. -/
theorem packFromWinogradTransform_spec_witness :
    PackFromWinogradTransform [8, 5, 3, 9] = some ⟨8, 32⟩ :=
  (packFromWinogradTransform_spec 8 5 3 9 (by decide) (by decide)).trans
    (by decide)

/-- C10: for a rank-4 shape whose channel count C is a positive multiple
of 4, packing as NCHW agrees with packing the explicitly blocked rank-5
shape [N, C / 4, H, W, 4] as NCHWc. -/
theorem packNCHW_eq_packNCHWc (n c h w k : Int) (hc : c = 4 * k) (hk : 1 ≤ k) :
    PackFromTensorNCHW [n, c, h, w] = PackFromTensorNCHWc [n, k, h, w, 4] := by
  subst hc
  have hckk : CeilDiv (4 * k) 4 = k := by
    unfold CeilDiv
    rw [Int.tdiv_eq_ediv (by omega) (by omega)]
    omega
  simp [PackFromTensorNCHW, PackFromTensorNCHWc, hckk]

/-- C10 witness: C = 8 = 4 * 2, so NCHW packing of [1, 8, 3, 5] equals
NCHWc packing of [1, 2, 3, 5, 4]. -/
theorem packNCHW_eq_packNCHWc_witness :
    (8 : Int) = 4 * 2 ∧
    PackFromTensorNCHW [1, 8, 3, 5] = PackFromTensorNCHWc [1, 2, 3, 5, 4] :=
  ⟨by decide, packNCHW_eq_packNCHWc 1 8 3 5 2 (by decide) (by decide)⟩

/-- C2 counterexample: at a = 0 (a non-negative) and b = 2 the strict
upper bound fails, since CeilDiv(0, 2) = (0 - 1) / 2 + 1 = 1 under
truncating division, so CeilDiv(0, 2) * 2 = 2 is not below 0 + 2; and
RoundToMultiple(0, 2) = 2 although 0 is a multiple of 2 that is at
least 0, so the result is not the least such multiple. -/
theorem ceilDiv_claim_counterexample :
    (0 : Int) ≤ 0 ∧ (0 : Int) < 2 ∧
    ¬ CeilDiv 0 2 * 2 < 0 + 2 ∧
    (2 : Int) ∣ 0 ∧ ¬ RoundToMultiple 0 2 ≤ 0 :=
  ⟨le_refl 0, by decide, by decide, dvd_zero 2, by decide⟩

/-- C2 amended: for every positive a and positive b,
CeilDiv(a, b) * b is at least a and below a + b, and
RoundToMultiple(a, b) is the least multiple of b that is at least a. -/
theorem ceilDiv_roundToMultiple_spec (a b : Int) (ha : 1 ≤ a) (hb : 1 ≤ b) :
    (a ≤ CeilDiv a b * b ∧ CeilDiv a b * b < a + b) ∧
    (b ∣ RoundToMultiple a b ∧ a ≤ RoundToMultiple a b ∧
      ∀ y : Int, b ∣ y → a ≤ y → RoundToMultiple a b ≤ y) := by
  have hcd : CeilDiv a b = (a - 1) / b + 1 := by
    unfold CeilDiv
    rw [Int.tdiv_eq_ediv (by omega) (by omega)]
  have hdm : b * ((a - 1) / b) + (a - 1) % b = a - 1 := Int.ediv_add_emod (a - 1) b
  have hr0 : 0 ≤ (a - 1) % b := Int.emod_nonneg _ (by omega)
  have hrb : (a - 1) % b < b := Int.emod_lt_of_pos _ (by omega)
  have hlow : a ≤ CeilDiv a b * b := by rw [hcd]; nlinarith [hdm, hr0, hrb]
  have hhigh : CeilDiv a b * b < a + b := by rw [hcd]; nlinarith [hdm, hr0, hrb]
  refine ⟨⟨hlow, hhigh⟩, ?_, hlow, ?_⟩
  · exact dvd_mul_left b (CeilDiv a b)
  · intro y hdvd hay
    obtain ⟨t, ht⟩ := hdvd
    have hbq : b * ((a - 1) / b) < b * t := by nlinarith [hdm, hr0]
    have hqt : (a - 1) / b < t := lt_of_mul_lt_mul_left hbq (by omega)
    have h3 : ((a - 1) / b + 1) * b ≤ t * b :=
      mul_le_mul_of_nonneg_right (by linarith) (by omega)
    show CeilDiv a b * b ≤ y
    rw [hcd, ht]
    linarith

/-- C2 witness: the amended bound and leastness statement evaluated at
a = 7, b = 3, where CeilDiv(7, 3) = 3. -/
theorem ceilDiv_roundToMultiple_spec_witness :
    (1 : Int) ≤ 7 ∧ (1 : Int) ≤ 3 ∧
    ((7 : Int) ≤ CeilDiv 7 3 * 3 ∧ CeilDiv 7 3 * 3 < 7 + 3) :=
  ⟨by decide, by decide, (ceilDiv_roundToMultiple_spec 7 3 (by decide) (by decide)).1⟩

/-- Helper: once the sticky status is non-success, a chain of binding
calls never invokes the device primitive again and leaves status and
error index untouched, while the cursor still advances once per call. -/
theorem runBinds_frozen (st : KernelLauncher) (hst : st.err_ ≠ CL_SUCCESS)
    (ss : List Int) :
    runBinds st ss =
      (⟨st.kernel_, st.index_ + ss.length, st.err_, st.err_index_⟩,
        List.replicate ss.length false) := by
  induction ss generalizing st with
  | nil => simp [runBinds]
  | cons s rest ih =>
    have step : setArgStep st s =
        (⟨st.kernel_, st.index_ + 1, st.err_, st.err_index_⟩, false) := by
      unfold setArgStep
      rw [if_neg hst]
    simp only [runBinds, step,
      ih ⟨st.kernel_, st.index_ + 1, st.err_, st.err_index_⟩ hst,
      List.length_cons, List.replicate_succ]
    rw [show st.index_ + 1 + rest.length = st.index_ + (rest.length + 1) by omega]

/-- Helper: starting from a clean status, if the statuses of the calls
before position k are all CL_SUCCESS and the status at position k is
not, then the chain ends with the status and cursor position of call k
recorded, the cursor advanced over every call, and exactly the calls up
to and including k having invoked the device primitive. -/
theorem runBinds_clean (ss : List Int) : ∀ (k : Nat) (st : KernelLauncher),
    st.err_ = CL_SUCCESS →
    ∀ (hk : k < ss.length),
    (∀ j (hj : j < k), ss.get ⟨j, hj.trans hk⟩ = CL_SUCCESS) →
    ss.get ⟨k, hk⟩ ≠ CL_SUCCESS →
    runBinds st ss =
      (⟨st.kernel_, st.index_ + ss.length, ss.get ⟨k, hk⟩, some (st.index_ + k)⟩,
        List.replicate (k + 1) true ++ List.replicate (ss.length - (k + 1)) false) := by
  induction ss with
  | nil => intro k st _ hk _ _; exact absurd hk (Nat.not_lt_zero k)
  | cons s rest ih =>
    intro k st hst hk hpre hfail
    have step : setArgStep st s =
        (⟨st.kernel_, st.index_ + 1, s, some st.index_⟩, true) := by
      unfold setArgStep
      rw [if_pos hst]
    match k with
    | 0 =>
      have hs : s ≠ CL_SUCCESS := hfail
      simp only [runBinds, step,
        runBinds_frozen ⟨st.kernel_, st.index_ + 1, s, some st.index_⟩ hs rest,
        List.length_cons]
      rw [show st.index_ + 1 + rest.length = st.index_ + (rest.length + 1) by omega]
      simp
    | k2 + 1 =>
      have hs : s = CL_SUCCESS := hpre 0 (Nat.succ_pos k2)
      have hk2 : k2 < rest.length := Nat.lt_of_succ_lt_succ hk
      have hpre2 : ∀ j (hj : j < k2), rest.get ⟨j, hj.trans hk2⟩ = CL_SUCCESS :=
        fun j hj => hpre (j + 1) (Nat.succ_lt_succ hj)
      have hfail2 : rest.get ⟨k2, hk2⟩ ≠ CL_SUCCESS := hfail
      have herr : (⟨st.kernel_, st.index_ + 1, s, some st.index_⟩ : KernelLauncher).err_ =
          CL_SUCCESS := hs
      simp only [runBinds, step,
        ih k2 ⟨st.kernel_, st.index_ + 1, s, some st.index_⟩ herr hk2 hpre2 hfail2,
        List.length_cons]
      rw [show st.index_ + 1 + rest.length = st.index_ + (rest.length + 1) by omega,
        show st.index_ + 1 + k2 = st.index_ + (k2 + 1) by omega]
      simp [List.replicate_succ]

/-- C1 counterexample: the claim says a binding call after the first
failed call must not advance the argument-index cursor, but the cursor
increment sits outside SKIP_IF_ERRORED and runs unconditionally. With
device statuses [-1, 0] the first call fails, the second call correctly
skips the device primitive, yet the final cursor is 2 rather than the
frozen value 1 the claim demands. -/
theorem freeze_claim_counterexample :
    ((-1 : Int) ≠ CL_SUCCESS) ∧
    (runBinds (mkKernelLauncher 0) [-1, 0]).2 = [true, false] ∧
    (runBinds (mkKernelLauncher 0) [-1, 0]).1.index_ = 2 ∧
    ¬ (runBinds (mkKernelLauncher 0) [-1, 0]).1.index_ = 1 := by decide

/-- C1 amended: if call k (0-indexed here) is the first binding call
whose device primitive returns a non-success status, then no later call
invokes the device primitive, the final recorded error status and error
index are exactly those of call k, but the argument-index cursor still
advances by one on every call, failed or skipped, so it ends at the
total number of calls. -/
theorem kernelLauncher_freeze (kernel : Nat) (ss : List Int) (k : Nat)
    (hk : k < ss.length)
    (hpre : ∀ j (hj : j < k), ss.get ⟨j, hj.trans hk⟩ = CL_SUCCESS)
    (hfail : ss.get ⟨k, hk⟩ ≠ CL_SUCCESS) :
    (runBinds (mkKernelLauncher kernel) ss).1.err_ = ss.get ⟨k, hk⟩ ∧
    (runBinds (mkKernelLauncher kernel) ss).1.err_index_ = some k ∧
    (runBinds (mkKernelLauncher kernel) ss).1.index_ = ss.length ∧
    (runBinds (mkKernelLauncher kernel) ss).2 =
      List.replicate (k + 1) true ++ List.replicate (ss.length - (k + 1)) false := by
  have h := runBinds_clean ss k (mkKernelLauncher kernel) rfl hk hpre hfail
  rw [h]
  exact ⟨rfl, by simp [mkKernelLauncher], by simp [mkKernelLauncher], rfl⟩

/-- C1 witness: statuses [0, 5, 0], where call 1 (0-indexed) is the
first failure: the final status is 5 at recorded index 1, the third call
did not invoke the primitive, and the cursor still ended at 3. -/
theorem kernelLauncher_freeze_witness :
    (runBinds (mkKernelLauncher 0) [0, 5, 0]).1.err_ = 5 ∧
    (runBinds (mkKernelLauncher 0) [0, 5, 0]).1.err_index_ = some 1 ∧
    (runBinds (mkKernelLauncher 0) [0, 5, 0]).1.index_ = 3 ∧
    (runBinds (mkKernelLauncher 0) [0, 5, 0]).2 = [true, true, false] := by
  have h := kernelLauncher_freeze 0 [0, 5, 0] 1 (by decide) (by decide) (by decide)
  exact ⟨h.1, h.2.1, h.2.2.1, h.2.2.2⟩

end OpenCL
